import Mathlib

/-!
Verification of the masq concurrent background-removal/upscaling engine.

Shallow embedding of the repository's core modules:
- `service` namespace: the HTTP service — `services/providers/base.py`,
  `services/providers/runware_provider.py`, `services/providers/kie_provider.py`,
  `services/providers/local_provider.py`, `services/shotgun.py`,
  `services/upscaler.py`, `routers/background.py`.
- `cogs` namespace: the bot-side engine — `cogs/masq/core.py`, `cogs/masq/cog.py`.
- `spec` namespace: one definition written from the specification's words (the
  Result Selector ordering), kept separate for refinement comparison with the code.

Concurrency is embedded by making each concurrently dispatched unit's observable
fate (terminated with a value / raised / still running at the batch deadline) an
explicit input; monetary cost and elapsed time, floats in the source, are embedded
as exact rationals (no claim below depends on float rounding).
-/

namespace service

/-- services/providers/base.py: ProviderStatus. -/
inductive ProviderStatus
  | success
  | failed
  | timeout
  | unavailable
deriving DecidableEq, Repr

/-- services/providers/base.py: ProviderResult. The `metadata` dict and
`timestamp` fields are omitted: no claim mentions them and nothing reads them. -/
structure ProviderResult where
  model_name : String
  provider : String
  status : ProviderStatus
  image_base64 : Option String := none
  error : Option String := none
  processing_time_ms : Rat := 0
  cost : Rat := 0
deriving DecidableEq, Repr

/-- ProviderResult.is_success (base.py 56-59): status is SUCCESS and the payload
is present. -/
def ProviderResult.is_success (self : ProviderResult) : Bool :=
  self.status == ProviderStatus.success && self.image_base64.isSome

/-- services/providers/base.py: the BaseProvider state set up in `__init__`.
`connection_type` stands for `provider_config.get("connection_type", "unknown")`
already resolved. -/
structure BaseProvider where
  model_name : String
  model_id : String
  connection_type : String
  timeout : Nat
  cost_per_image : Rat
deriving DecidableEq, Repr

/-- BaseProvider._create_error_result (base.py 111-119): a standardized error
result with cost 0. The source's `status` argument defaults to FAILED; callers
here pass it explicitly. -/
def BaseProvider._create_error_result (self : BaseProvider) (error : String)
    (status : ProviderStatus) : ProviderResult :=
  { model_name := self.model_name
    provider := self.connection_type
    status := status
    error := some error
    cost := 0 }

/-- Observable outcome of the external Runware round trip inside
RunwareProvider.remove_background: each constructor is one branch the code
distinguishes. -/
inductive RunwareCall
  | noResults
  | imageFromUrl (image_base64 : String)
  | imageFromBase64 (image_base64 : String)
  | noImageField
  | timedOut
  | raised (message : String)
deriving DecidableEq, Repr

/-- RunwareProvider.remove_background (runware_provider.py 54-133). A falsy api
key is embedded as the empty string. -/
def RunwareProvider.remove_background (self : BaseProvider) (api_key : String)
    (call : RunwareCall) (elapsed_ms : Rat) : ProviderResult :=
  if api_key = "" then
    self._create_error_result "Runware API key not configured" ProviderStatus.unavailable
  else
    match call with
    | RunwareCall.noResults =>
        self._create_error_result "No results returned from Runware" ProviderStatus.failed
    | RunwareCall.imageFromUrl b64 =>
        { model_name := self.model_name
          provider := "runware"
          status := ProviderStatus.success
          image_base64 := some b64
          processing_time_ms := elapsed_ms
          cost := self.cost_per_image }
    | RunwareCall.imageFromBase64 b64 =>
        { model_name := self.model_name
          provider := "runware"
          status := ProviderStatus.success
          image_base64 := some b64
          processing_time_ms := elapsed_ms
          cost := self.cost_per_image }
    | RunwareCall.noImageField =>
        self._create_error_result "No image in Runware response" ProviderStatus.failed
    | RunwareCall.timedOut =>
        self._create_error_result
          ("Runware timeout after " ++ toString self.timeout ++ "s") ProviderStatus.timeout
    | RunwareCall.raised e =>
        self._create_error_result e ProviderStatus.failed

/-- Observable outcome of the Kie.ai upload/submit/poll/download sequence inside
KieProvider.remove_background; the internal ValueErrors it raises are `raised`
(they are caught by the method's own except clause). -/
inductive KieCall
  | gotImage (image_base64 : String)
  | timedOut
  | raised (message : String)
deriving DecidableEq, Repr

/-- KieProvider.remove_background (kie_provider.py 132-202). -/
def KieProvider.remove_background (self : BaseProvider) (api_key : String)
    (call : KieCall) (elapsed_ms : Rat) : ProviderResult :=
  if api_key = "" then
    self._create_error_result "Kie.ai API key not configured" ProviderStatus.unavailable
  else
    match call with
    | KieCall.gotImage b64 =>
        { model_name := self.model_name
          provider := "kie"
          status := ProviderStatus.success
          image_base64 := some b64
          processing_time_ms := elapsed_ms
          cost := self.cost_per_image }
    | KieCall.timedOut =>
        self._create_error_result
          ("Kie.ai timeout after " ++ toString self.timeout ++ "s") ProviderStatus.timeout
    | KieCall.raised e =>
        self._create_error_result e ProviderStatus.failed

/-- Observable outcome of the thread-pool rembg run inside
LocalProvider.remove_background. -/
inductive LocalCall
  | gotImage (image_base64 : String)
  | timedOut
  | raised (message : String)
deriving DecidableEq, Repr

/-- LocalProvider.remove_background (local_provider.py 75-121); success cost is
the literal 0.0 ("Local models are free"). -/
def LocalProvider.remove_background (self : BaseProvider) (call : LocalCall)
    (elapsed_ms : Rat) : ProviderResult :=
  match call with
  | LocalCall.gotImage b64 =>
      { model_name := self.model_name
        provider := "local"
        status := ProviderStatus.success
        image_base64 := some b64
        processing_time_ms := elapsed_ms
        cost := 0 }
  | LocalCall.timedOut =>
      self._create_error_result
        ("Local model timeout after " ++ toString self.timeout ++ "s") ProviderStatus.timeout
  | LocalCall.raised e =>
      self._create_error_result e ProviderStatus.failed

/-- services/shotgun.py: ShotgunResult container. -/
structure ShotgunResult where
  results : List ProviderResult
  total_time_ms : Rat
  total_cost : Rat
  successful_count : Nat
  failed_count : Nat
deriving DecidableEq, Repr

/-- ShotgunResult.__init__ (shotgun.py 27-32). -/
def ShotgunResult.init : ShotgunResult :=
  { results := []
    total_time_ms := 0
    total_cost := 0
    successful_count := 0
    failed_count := 0 }

/-- ShotgunResult.add_result (shotgun.py 34-41). -/
def ShotgunResult.add_result (self : ShotgunResult) (result : ProviderResult) : ShotgunResult :=
  { self with
    results := self.results ++ [result]
    total_cost := self.total_cost + result.cost
    successful_count :=
      if result.is_success then self.successful_count + 1 else self.successful_count
    failed_count :=
      if result.is_success then self.failed_count else self.failed_count + 1 }

/-- ShotgunResult.successful_results (shotgun.py 56-59). -/
def ShotgunResult.successful_results (self : ShotgunResult) : List ProviderResult :=
  self.results.filter (fun r => r.is_success)

/-- What the awaited coroutine of one unit does inside
ShotgunService._run_single_model: returns a ProviderResult or raises. -/
inductive UnitCall
  | returns (result : ProviderResult)
  | raised (message : String)
deriving DecidableEq, Repr

/-- ShotgunService._run_single_model (shotgun.py 120-139): passes a returned
result through and converts any exception into a FAILED result at the unit
boundary. -/
def ShotgunService._run_single_model (provider : BaseProvider) (call : UnitCall) : ProviderResult :=
  match call with
  | UnitCall.returns r => r
  | UnitCall.raised e =>
      { model_name := provider.model_name
        provider := provider.connection_type
        status := ProviderStatus.failed
        error := some e }

/-- Fate of one dispatched unit relative to the batch deadline: its coroutine
either reached a terminal state (with the given call outcome) before
total_timeout, or was still running when total_timeout elapsed. -/
inductive UnitFate
  | completed (call : UnitCall)
  | stillRunning
deriving DecidableEq, Repr

def UnitFate.isTerminal : UnitFate → Bool
  | UnitFate.completed _ => true
  | UnitFate.stillRunning => false

/-- One provider actually dispatched by ShotgunService.execute, together with its
observable fate. -/
structure DispatchUnit where
  provider : BaseProvider
  fate : UnitFate
deriving DecidableEq, Repr

/-- The outcome a unit contributes: its _run_single_model result if it reached a
terminal state, nothing if it was still running at the deadline. -/
def DispatchUnit.outcome? (u : DispatchUnit) : Option ProviderResult :=
  match u.fate with
  | UnitFate.completed c => some (ShotgunService._run_single_model u.provider c)
  | UnitFate.stillRunning => none

/-- ShotgunService.execute, parallel branch (shotgun.py 186-201). The gather of
all unit coroutines is awaited under asyncio.wait_for(total_timeout): if every
unit reaches a terminal state in time, gather yields the per-unit results in task
order and each one is added via add_result; if any unit is still running at the
deadline, wait_for raises TimeoutError, the except branch only logs, and nothing
at all is added to the round's ShotgunResult. -/
def ShotgunService.execute (units : List DispatchUnit) : ShotgunResult :=
  if units.all (fun u => u.fate.isTerminal) then
    (units.filterMap DispatchUnit.outcome?).foldl ShotgunResult.add_result ShotgunResult.init
  else
    ShotgunResult.init

/-- routers/background.py: the response body of the /log-selection endpoint. -/
structure SelectionResponse where
  status : String
  model_id : String
  job_id : Option String
deriving DecidableEq, Repr

/-- log_selection (background.py 184-215): logs the choice and acknowledges. It
reads no stored state, validates nothing, and never raises; the handler body is a
log statement plus this constant response (persistence is an explicit TODO). -/
def log_selection (model_id : String) (job_id : Option String)
    (_notes : Option String) : SelectionResponse :=
  { status := "logged"
    model_id := model_id
    job_id := job_id }

end service

namespace service

/-- One pixel of a decoded image. PIL RGB-mode images have no alpha band; they
are embedded with alpha 255. -/
structure RGBA where
  r : Nat
  g : Nat
  b : Nat
  a : Nat
deriving DecidableEq, Repr

/-- A decoded PIL image: mode string, dimensions, and pixel accessor. -/
structure PILImage where
  mode : String
  width : Nat
  height : Nat
  px : Nat → Nat → RGBA

def whitePixel : RGBA := { r := 255, g := 255, b := 255, a := 255 }

/-- Per-channel blend performed by PIL Image.paste with an L-mode mask: the mask
value a weighs the pasted source against the background. Only the a = 0 case
(pure background) is relied on by the theorems below. -/
def blendChannel (bg src a : Nat) : Nat := (src * a + bg * (255 - a)) / 255

/-- upscaler.py 106-107: Image.new("RGB", size, (255, 255, 255)) followed by
rgb_image.paste(input_image, mask=input_image.split()[3]) — composite the RGBA
image onto an opaque white background using its alpha band as the mask. -/
def composite_white (img : PILImage) : PILImage :=
  { mode := "RGB"
    width := img.width
    height := img.height
    px := fun x y =>
      let p := img.px x y
      { r := blendChannel 255 p.r p.a
        g := blendChannel 255 p.g p.a
        b := blendChannel 255 p.b p.a
        a := 255 } }

/-- The tuple returned by UpscalerService._upscale_sync; `image` stands for the
decoded content of the PNG bytes it encodes. -/
structure UpscaleSyncOut where
  image : PILImage
  original_size : Nat × Nat
  new_size : Nat × Nat
  has_alpha : Bool

/-- UpscalerService._upscale_sync (upscaler.py 76-122) on an already-decoded
image. The PIL calls Image.resize(new_size, LANCZOS) and convert("RGB") are
external collaborators, passed in as functions. -/
def UpscalerService._upscale_sync (resize : PILImage → Nat × Nat → PILImage)
    (convertRGB : PILImage → PILImage) (input_image : PILImage) (scale : Nat)
    (preserve_alpha : Bool) : UpscaleSyncOut :=
  let original_size := (input_image.width, input_image.height)
  let has_alpha := input_image.mode == "RGBA"
  let new_size := (input_image.width * scale, input_image.height * scale)
  if preserve_alpha && has_alpha then
    { image := resize input_image new_size
      original_size := original_size
      new_size := new_size
      has_alpha := has_alpha }
  else if input_image.mode == "RGBA" then
    { image := resize (composite_white input_image) new_size
      original_size := original_size
      new_size := new_size
      has_alpha := false }
  else
    let converted := if input_image.mode == "RGB" then input_image else convertRGB input_image
    { image := resize converted new_size
      original_size := original_size
      new_size := new_size
      has_alpha := has_alpha }

/-- services/upscaler.py: UpscalerService construction state. -/
structure UpscalerService where
  default_scale : Int := 4
  max_scale : Int := 8
deriving DecidableEq, Repr

/-- services/upscaler.py: UpscaleResult. `image` stands for the decoded content
of image_base64. -/
structure UpscaleResult where
  success : Bool
  image : Option PILImage := none
  original_size : Nat × Nat := (0, 0)
  upscaled_size : Nat × Nat := (0, 0)
  scale_factor : Int := 1
  processing_time_ms : Rat := 0
  error : Option String := none
  has_alpha : Bool := false

/-- UpscalerService.upscale (upscaler.py 124-187). `decoded` is the outcome of
Image.open on the payload: none when undecodable (the thread-pool call raises and
the except branch returns a failure result), some img otherwise. An absent scale
argument takes default_scale; the scale is then clamped into [1, max_scale] and
the call always proceeds. -/
def UpscalerService.upscale (resize : PILImage → Nat × Nat → PILImage)
    (convertRGB : PILImage → PILImage) (self : UpscalerService)
    (decoded : Option PILImage) (scale : Option Int) (preserve_alpha : Bool) : UpscaleResult :=
  let scale := match scale with
    | Option.none => self.default_scale
    | Option.some s => s
  let scale := max 1 (min scale self.max_scale)
  match decoded with
  | Option.none =>
      { success := false
        error := some "cannot identify image file" }
  | Option.some img =>
      let out := UpscalerService._upscale_sync resize convertRGB img scale.toNat preserve_alpha
      { success := true
        image := some out.image
        original_size := out.original_size
        upscaled_size := out.new_size
        scale_factor := scale
        has_alpha := out.has_alpha }

/-- get_upscaler_service (upscaler.py 222-227): the singleton is built with the
constructor defaults (default_scale 4, max_scale 8). -/
def get_upscaler_service : UpscalerService := {}

end service

namespace cogs

/-- cogs/masq/core.py: ModelStatus. Note there is no CANCELLED member. -/
inductive ModelStatus
  | success
  | failed
  | timeout
  | unavailable
deriving DecidableEq, Repr

/-- cogs/masq/core.py: ModelResult. Image bytes are embedded as a byte list; the
image_base64 field, a base64 mirror of image_bytes set exactly when image_bytes
is, is omitted. -/
structure ModelResult where
  model_id : String
  model_name : String
  provider : String
  status : ModelStatus
  image_bytes : Option (List Nat) := none
  error : Option String := none
  processing_time_ms : Rat := 0
  cost : Rat := 0
deriving DecidableEq, Repr

/-- ModelResult.is_success (core.py 49-51): status is SUCCESS and the payload is
present. -/
def ModelResult.is_success (self : ModelResult) : Bool :=
  self.status == ModelStatus.success && self.image_bytes.isSome

/-- One entry of the MODELS table (core.py 117-158). -/
structure ModelCfg where
  name : String
  provider : String
  model_id : String
  cost : Rat
  priority : Nat
deriving DecidableEq, Repr

/-- The MODELS configuration table (core.py 117-158); costs 0.0006 and 0.005 are
the exact decimals 6/10000 and 5/1000. -/
def MODELS : List (String × ModelCfg) :=
  [("runware_rmbg2",
    { name := "RMBG 2.0", provider := "runware", model_id := "runware:110@1",
      cost := 6 / 10000, priority := 1 }),
   ("runware_birefnet_portrait",
    { name := "BiRefNet Portrait", provider := "runware", model_id := "runware:112@10",
      cost := 6 / 10000, priority := 2 }),
   ("kie_recraft",
    { name := "Recraft BG", provider := "kie", model_id := "recraft/remove-background",
      cost := 5 / 1000, priority := 3 }),
   ("local_birefnet",
    { name := "BiRefNet General", provider := "local", model_id := "birefnet-general",
      cost := 0, priority := 4 }),
   ("local_isnet",
    { name := "ISNet", provider := "local", model_id := "isnet-general-use",
      cost := 0, priority := 5 })]

def DEFAULT_SHOTGUN_MODELS : List String :=
  ["runware_rmbg2", "runware_birefnet_portrait", "kie_recraft",
   "local_birefnet", "local_isnet"]

/-- MODELS[model_id]["priority"]: the configured tie-break priority of a model,
99 (the fallback the HTTP model listing uses) for unknown ids. -/
def modelPriority (model_id : String) : Nat :=
  ((MODELS.lookup model_id).map ModelCfg.priority).getD 99

/-- cogs/masq/core.py: ShotgunResult (dataclass, 66-88); the timestamp field is
omitted. -/
structure ShotgunResult where
  results : List ModelResult
  total_time_ms : Rat
deriving DecidableEq, Repr

/-- ShotgunResult.successful (core.py 73-75). -/
def ShotgunResult.successful (self : ShotgunResult) : List ModelResult :=
  self.results.filter (fun r => r.is_success)

/-- What the provider-specific coroutine awaited inside Masq._run_model does:
returns result bytes, raises asyncio.TimeoutError, or raises anything else. -/
inductive RunCall
  | ok (result_bytes : List Nat)
  | timeoutError
  | raised (message : String)
deriving DecidableEq, Repr

/-- Masq._run_model (core.py 301-346): converts the provider call's outcome at
the unit boundary — success carries the bytes and the configured cost,
asyncio.TimeoutError becomes TIMEOUT, any other exception becomes FAILED; no
exception propagates. -/
def Masq._run_model (timeout : Nat) (model_id : String) (config : ModelCfg)
    (call : RunCall) (elapsed_ms : Rat) : ModelResult :=
  match call with
  | RunCall.ok result_bytes =>
      { model_id := model_id
        model_name := config.name
        provider := config.provider
        status := ModelStatus.success
        image_bytes := some result_bytes
        processing_time_ms := elapsed_ms
        cost := config.cost }
  | RunCall.timeoutError =>
      { model_id := model_id
        model_name := config.name
        provider := config.provider
        status := ModelStatus.timeout
        error := some ("Timeout after " ++ toString timeout ++ "s")
        processing_time_ms := elapsed_ms }
  | RunCall.raised e =>
      { model_id := model_id
        model_name := config.name
        provider := config.provider
        status := ModelStatus.failed
        error := some e
        processing_time_ms := elapsed_ms }

/-- Fate of one created task relative to the asyncio.wait deadline in
Masq.remove_background: in the done set with its _run_model result, or still
pending at timeout + 30. -/
inductive TaskFate
  | finished (result : ModelResult)
  | pending
deriving DecidableEq, Repr

def TaskFate.isFinished : TaskFate → Bool
  | TaskFate.finished _ => true
  | TaskFate.pending => false

def TaskFate.result? : TaskFate → Option ModelResult
  | TaskFate.finished r => some r
  | TaskFate.pending => none

/-- Masq.remove_background, collection phase (core.py 227-245): tasks in the done
set contribute their ModelResult; pending tasks are cancelled with a log line and
contribute nothing. The done-set iteration order is arbitrary in the source; the
model collects in task order, and nothing proved below depends on that order. -/
def Masq.remove_background (tasks : List TaskFate) : ShotgunResult :=
  { results := tasks.filterMap TaskFate.result?
    total_time_ms := 0 }

/-- The scale clamp at the head of Masq.upscale (core.py 506):
scale = max(1, min(scale, 8)). -/
def Masq.upscale_clamped_scale (scale : Int) : Int := max 1 (min scale 8)

/-- The custom_id values of the buttons created by ModelSelectView.__init__
(cog.py 41-50): one button per successful result, in list order, with custom_id
"select_" + model_id; non-successful results get no button. -/
def ModelSelectView.button_custom_ids (results : List ModelResult) : List String :=
  (results.filter (fun r => r.is_success)).map (fun r => "select_" ++ r.model_id)

end cogs

namespace spec

/-- From the spec, not the code (spec 4.5): present(jobResult) returns the
successful outcomes sorted by ProviderSpec.priority ascending, ties broken by
completion order — a stable sort of the completion-ordered successful outcomes.
Kept for refinement comparison with the code's successful_results/successful,
which apply no sort. -/
def present (priority : cogs.ModelResult → Nat) (results : List cogs.ModelResult) :
    List cogs.ModelResult :=
  (results.filter (fun r => r.is_success)).insertionSort
    (fun a b => priority a ≤ priority b)

end spec

/-- A concrete provider (RMBG 2.0 over the websocket connection), used as input
for concrete evaluations. -/
def exampleProvider : service.BaseProvider :=
  { model_name := "RMBG 2.0"
    model_id := "runware:110@1"
    connection_type := "websocket"
    timeout := 120
    cost_per_image := 0 }

/-- A concrete successful provider result. -/
def exampleOk : service.ProviderResult :=
  { model_name := "RMBG 2.0"
    provider := "runware"
    status := service.ProviderStatus.success
    image_base64 := some "iVBORw0KGgo" }

/-- A unit still running when the batch deadline elapses. -/
def pendingUnit : service.DispatchUnit :=
  { provider := exampleProvider, fate := service.UnitFate.stillRunning }

/-- A unit whose coroutine returned a successful result in time. -/
def completedUnit : service.DispatchUnit :=
  { provider := exampleProvider
    fate := service.UnitFate.completed (service.UnitCall.returns exampleOk) }

/-- A unit whose coroutine raised in time. -/
def raisedUnit : service.DispatchUnit :=
  { provider := exampleProvider
    fate := service.UnitFate.completed (service.UnitCall.raised "connection reset") }

/-- A successful ISNet outcome (priority 5) for concrete evaluations. -/
def exampleIsnet : cogs.ModelResult :=
  { model_id := "local_isnet"
    model_name := "ISNet"
    provider := "local"
    status := cogs.ModelStatus.success
    image_bytes := some [137, 80, 78, 71] }

/-- A successful RMBG 2.0 outcome (priority 1) for concrete evaluations. -/
def exampleRmbg : cogs.ModelResult :=
  { model_id := "runware_rmbg2"
    model_name := "RMBG 2.0"
    provider := "runware"
    status := cogs.ModelStatus.success
    image_bytes := some [137, 80, 78, 71, 13] }

/-- A failed outcome for concrete evaluations. -/
def exampleFailed : cogs.ModelResult :=
  { model_id := "kie_recraft"
    model_name := "Recraft BG"
    provider := "kie"
    status := cogs.ModelStatus.failed
    error := some "Kie task failed" }

/-- The MODELS entry for local_isnet, as a standalone configuration value. -/
def exampleCfg : cogs.ModelCfg :=
  { name := "ISNet"
    provider := "local"
    model_id := "isnet-general-use"
    cost := 0
    priority := 5 }

/-- A status-SUCCESS service outcome whose payload is missing. -/
def examplePayloadless : service.ProviderResult :=
  { model_name := "RMBG 2.0"
    provider := "runware"
    status := service.ProviderStatus.success
    image_base64 := none }

/-- A status-SUCCESS bot-core outcome whose payload is missing. -/
def examplePayloadlessModel : cogs.ModelResult :=
  { model_id := "runware_rmbg2"
    model_name := "RMBG 2.0"
    provider := "runware"
    status := cogs.ModelStatus.success
    image_bytes := none }

/-- A concrete resize collaborator satisfying the PIL contract that resizing an
image to its own size returns the image unchanged. -/
def exampleResize : service.PILImage → Nat × Nat → service.PILImage :=
  fun i s =>
    if (i.width, i.height) = s then i
    else { mode := i.mode, width := s.1, height := s.2, px := i.px }

/-- A concrete 2x3 RGBA image whose single top-left pixel is fully transparent. -/
def exampleImage : service.PILImage :=
  { mode := "RGBA"
    width := 2
    height := 3
    px := fun x y => if x = 0 && y = 0 then ⟨10, 20, 30, 0⟩ else ⟨1, 2, 3, 255⟩ }

/-- Helper: add_result appends the outcome to the results list. -/
theorem add_result_results (s : service.ShotgunResult) (r : service.ProviderResult) :
    (s.add_result r).results = s.results ++ [r] := rfl

/-- Helper: folding add_result over a list of outcomes appends them all, in
order. -/
theorem foldl_add_result_results (rs : List service.ProviderResult) (s : service.ShotgunResult) :
    (rs.foldl service.ShotgunResult.add_result s).results = s.results ++ rs := by
  induction rs generalizing s with
  | nil => simp
  | cons r rs ih =>
      rw [List.foldl_cons, ih]
      simp [service.ShotgunResult.add_result]

/-- Helper: folding add_result adds one to exactly one of the two counters per
outcome. -/
theorem foldl_add_result_counts (rs : List service.ProviderResult) (s : service.ShotgunResult) :
    (rs.foldl service.ShotgunResult.add_result s).successful_count +
      (rs.foldl service.ShotgunResult.add_result s).failed_count =
      s.successful_count + s.failed_count + rs.length := by
  induction rs generalizing s with
  | nil => simp
  | cons r rs ih =>
      rw [List.foldl_cons, ih]
      by_cases hr : r.is_success <;>
        simp [service.ShotgunResult.add_result, hr] <;> omega

/-- Helper: filterMap keeps the length when the function is some everywhere. -/
theorem length_filterMap_of_isSome {α β : Type} (f : α → Option β) (l : List α)
    (h : ∀ a ∈ l, (f a).isSome = true) : (l.filterMap f).length = l.length := by
  induction l with
  | nil => rfl
  | cons a l ih =>
      rcases ho : f a with _ | b
      · exact absurd (h a (by simp)) (by simp [ho])
      · simp only [List.filterMap_cons, ho, List.length_cons]
        rw [ih fun x hx => h x (by simp [hx])]

/-- Helper: filterMap and filter agree in length when isSome tracks the
predicate. -/
theorem length_filterMap_eq_length_filter {α β : Type} (f : α → Option β) (p : α → Bool)
    (hp : ∀ a, (f a).isSome = p a) (l : List α) :
    (l.filterMap f).length = (l.filter p).length := by
  induction l with
  | nil => rfl
  | cons a l ih =>
      rcases ho : f a with _ | b
      · have hpa : p a = false := by rw [← hp a, ho]; rfl
        simp [List.filterMap_cons, List.filter_cons, ho, hpa, ih]
      · have hpa : p a = true := by rw [← hp a, ho]; rfl
        simp [List.filterMap_cons, List.filter_cons, ho, hpa, ih]

/-- Helper: when every unit reaches a terminal state before the batch deadline,
the round records exactly one outcome per dispatched provider. -/
theorem execute_length_of_all_terminal (units : List service.DispatchUnit)
    (h : units.all (fun u => u.fate.isTerminal) = true) :
    (service.ShotgunService.execute units).results.length = units.length := by
  simp only [service.ShotgunService.execute, if_pos h]
  rw [foldl_add_result_results]
  have hlen : (units.filterMap service.DispatchUnit.outcome?).length = units.length := by
    apply length_filterMap_of_isSome
    intro u hu
    have hterm := List.all_eq_true.mp h u hu
    cases hf : u.fate with
    | completed c => simp [service.DispatchUnit.outcome?, hf]
    | stillRunning =>
        rw [hf] at hterm
        exact absurd hterm (by simp [service.UnitFate.isTerminal])
  simpa [service.ShotgunResult.init] using hlen

/-- Claim C1 (counterexample). One provider is dispatched and is still running
when the batch deadline elapses: asyncio.wait_for raises TimeoutError, the
except branch in ShotgunService.execute adds nothing, and the round returns zero
outcomes — nothing is recorded as Cancelled (ProviderStatus has no such member),
so len(results) = 0 differs from the 1 provider dispatched. -/
theorem C1_counterexample :
    (service.ShotgunService.execute [pendingUnit]).results = [] ∧ [pendingUnit].length = 1 :=
  ⟨rfl, rfl⟩

/-- Claim C1 (amended). When every dispatched unit reaches a terminal state
before the batch deadline, each dispatched provider yields exactly one outcome
and len(results) equals the number of providers dispatched. When the deadline
elapses first there is no Cancelled status: ShotgunService.execute discards the
whole round (see the counterexample), and Masq.remove_background keeps exactly
the outcomes of tasks in the done set, dropping the still-pending units'
outcomes. -/
theorem C1_batch_accounting (units : List service.DispatchUnit) (tasks : List cogs.TaskFate)
    (h : units.all (fun u => u.fate.isTerminal) = true) :
    (service.ShotgunService.execute units).results.length = units.length ∧
    (cogs.Masq.remove_background tasks).results.length =
      (tasks.filter cogs.TaskFate.isFinished).length := by
  refine ⟨execute_length_of_all_terminal units h, ?_⟩
  simp only [cogs.Masq.remove_background]
  apply length_filterMap_eq_length_filter
  intro t
  cases t <;> rfl

/-- Witness for C1_batch_accounting at a concrete two-provider batch and a
concrete two-task round with one pending task. -/
theorem C1_batch_accounting_witness :
    ([completedUnit, raisedUnit].all (fun u => u.fate.isTerminal) = true) ∧
    ((service.ShotgunService.execute [completedUnit, raisedUnit]).results.length =
        [completedUnit, raisedUnit].length ∧
      (cogs.Masq.remove_background
          [cogs.TaskFate.finished exampleIsnet, cogs.TaskFate.pending]).results.length =
        ([cogs.TaskFate.finished exampleIsnet, cogs.TaskFate.pending].filter
            cogs.TaskFate.isFinished).length) :=
  ⟨by decide, C1_batch_accounting [completedUnit, raisedUnit]
      [cogs.TaskFate.finished exampleIsnet, cogs.TaskFate.pending] (by decide)⟩

/-- Claim C3. After every sequence of add_result calls starting from a fresh
ShotgunResult, successful_count + failed_count (every non-Success outcome,
payloadless Success included, lands in failed_count) equals len(results). -/
theorem C3_counts_invariant (rs : List service.ProviderResult) :
    (rs.foldl service.ShotgunResult.add_result service.ShotgunResult.init).successful_count +
      (rs.foldl service.ShotgunResult.add_result service.ShotgunResult.init).failed_count =
      (rs.foldl service.ShotgunResult.add_result service.ShotgunResult.init).results.length := by
  rw [foldl_add_result_counts, foldl_add_result_results]
  simp [service.ShotgunResult.init]

/-- Claim C2. Any exception raised inside a single provider unit is caught at
the unit boundary: ShotgunService._run_single_model converts it to a FAILED
result carrying the message (and passes a returned result through untouched),
and Masq._run_model converts asyncio.TimeoutError to TIMEOUT and any other
exception to FAILED — the dispatcher is a total function and never propagates a
per-provider exception. Moreover one provider's raising never fails the batch:
a fully-terminated round still yields one outcome per dispatched provider, with
no exception escaping execute. -/
theorem C2_unit_boundary (provider : service.BaseProvider) (e : String)
    (r : service.ProviderResult) (timeout : Nat) (model_id : String)
    (cfg : cogs.ModelCfg) (t : Rat) (units : List service.DispatchUnit)
    (h : units.all (fun u => u.fate.isTerminal) = true) :
    (service.ShotgunService._run_single_model provider (service.UnitCall.raised e)).status =
        service.ProviderStatus.failed ∧
    (service.ShotgunService._run_single_model provider (service.UnitCall.raised e)).error =
        some e ∧
    service.ShotgunService._run_single_model provider (service.UnitCall.returns r) = r ∧
    (cogs.Masq._run_model timeout model_id cfg cogs.RunCall.timeoutError t).status =
        cogs.ModelStatus.timeout ∧
    (cogs.Masq._run_model timeout model_id cfg (cogs.RunCall.raised e) t).status =
        cogs.ModelStatus.failed ∧
    (service.ShotgunService.execute units).results.length = units.length :=
  ⟨rfl, rfl, rfl, rfl, rfl, execute_length_of_all_terminal units h⟩

/-- Witness for C2_unit_boundary at a concrete batch holding one successful unit
and one unit whose coroutine raised. -/
theorem C2_unit_boundary_witness :
    ([completedUnit, raisedUnit].all (fun u => u.fate.isTerminal) = true) ∧
    ((service.ShotgunService._run_single_model exampleProvider
          (service.UnitCall.raised "connection reset")).status =
        service.ProviderStatus.failed ∧
      (service.ShotgunService._run_single_model exampleProvider
          (service.UnitCall.raised "connection reset")).error = some "connection reset" ∧
      service.ShotgunService._run_single_model exampleProvider
          (service.UnitCall.returns exampleOk) = exampleOk ∧
      (cogs.Masq._run_model 120 "local_isnet" exampleCfg cogs.RunCall.timeoutError 5).status =
        cogs.ModelStatus.timeout ∧
      (cogs.Masq._run_model 120 "local_isnet" exampleCfg
          (cogs.RunCall.raised "connection reset") 5).status = cogs.ModelStatus.failed ∧
      (service.ShotgunService.execute [completedUnit, raisedUnit]).results.length =
        [completedUnit, raisedUnit].length) :=
  ⟨by decide, C2_unit_boundary exampleProvider "connection reset" exampleOk 120
      "local_isnet" exampleCfg 5 [completedUnit, raisedUnit] (by decide)⟩

/-- Claim C4. Every non-Success outcome has cost 0: the three providers funnel
every error branch through _create_error_result (cost 0.0), the shotgun unit
boundary builds its FAILED result with the default cost 0.0, and Masq._run_model
builds its TIMEOUT/FAILED results with the default cost 0.0. -/
theorem C4_nonsuccess_cost_zero (self : service.BaseProvider) (api_key : String)
    (rc : service.RunwareCall) (kc : service.KieCall) (lc : service.LocalCall)
    (e : String) (timeout : Nat) (model_id : String) (cfg : cogs.ModelCfg)
    (call : cogs.RunCall) (t : Rat) :
    ((service.RunwareProvider.remove_background self api_key rc t).status ≠
        service.ProviderStatus.success →
      (service.RunwareProvider.remove_background self api_key rc t).cost = 0) ∧
    ((service.KieProvider.remove_background self api_key kc t).status ≠
        service.ProviderStatus.success →
      (service.KieProvider.remove_background self api_key kc t).cost = 0) ∧
    ((service.LocalProvider.remove_background self lc t).status ≠
        service.ProviderStatus.success →
      (service.LocalProvider.remove_background self lc t).cost = 0) ∧
    (service.ShotgunService._run_single_model self (service.UnitCall.raised e)).cost = 0 ∧
    ((cogs.Masq._run_model timeout model_id cfg call t).status ≠ cogs.ModelStatus.success →
      (cogs.Masq._run_model timeout model_id cfg call t).cost = 0) := by
  refine ⟨?_, ?_, ?_, rfl, ?_⟩
  · intro hs
    by_cases hk : api_key = "" <;>
      cases rc <;>
        simp_all [service.RunwareProvider.remove_background,
          service.BaseProvider._create_error_result]
  · intro hs
    by_cases hk : api_key = "" <;>
      cases kc <;>
        simp_all [service.KieProvider.remove_background,
          service.BaseProvider._create_error_result]
  · intro hs
    cases lc <;>
      simp_all [service.LocalProvider.remove_background,
        service.BaseProvider._create_error_result]
  · intro hs
    cases call <;> simp_all [cogs.Masq._run_model]

/-- Witness for C4_nonsuccess_cost_zero: a concrete timed-out Runware call has a
non-Success status and cost 0. -/
theorem C4_nonsuccess_cost_zero_witness :
    (service.RunwareProvider.remove_background exampleProvider "key"
        service.RunwareCall.timedOut 5).status ≠ service.ProviderStatus.success ∧
    (service.RunwareProvider.remove_background exampleProvider "key"
        service.RunwareCall.timedOut 5).cost = 0 :=
  ⟨by decide, (C4_nonsuccess_cost_zero exampleProvider "key" service.RunwareCall.timedOut
      service.KieCall.timedOut service.LocalCall.timedOut "err" 120 "local_isnet"
      exampleCfg cogs.RunCall.timeoutError 5).1 (by decide)⟩

/-- Claim C5. The Transform Engine clamps every integer scale factor into
[1, max_scale = 8] and proceeds: for any decodable input the call succeeds
whatever the requested scale, both in UpscalerService.upscale and in the
Masq.upscale clamp; no out-of-range scale is rejected. -/
theorem C5_scale_clamped (resize : service.PILImage → Nat × Nat → service.PILImage)
    (convertRGB : service.PILImage → service.PILImage) (img : service.PILImage)
    (s : Int) (preserve_alpha : Bool) :
    1 ≤ (service.UpscalerService.upscale resize convertRGB service.get_upscaler_service
          (some img) (some s) preserve_alpha).scale_factor ∧
    (service.UpscalerService.upscale resize convertRGB service.get_upscaler_service
        (some img) (some s) preserve_alpha).scale_factor ≤ 8 ∧
    (service.UpscalerService.upscale resize convertRGB service.get_upscaler_service
        (some img) (some s) preserve_alpha).success = true ∧
    1 ≤ cogs.Masq.upscale_clamped_scale s ∧ cogs.Masq.upscale_clamped_scale s ≤ 8 := by
  refine ⟨?_, ?_, rfl, ?_, ?_⟩
  · simp only [service.UpscalerService.upscale, service.get_upscaler_service]
    omega
  · simp only [service.UpscalerService.upscale, service.get_upscaler_service]
    omega
  · simp only [cogs.Masq.upscale_clamped_scale]
    omega
  · simp only [cogs.Masq.upscale_clamped_scale]
    omega

/-- Claim C6. On a decodable RGBA image, transform with scale 1 and
preserve_alpha reports output dimensions equal to the original dimensions and
has_alpha true (the reported sizes are the computed original_size and new_size =
(w*scale, h*scale) tuples of _upscale_sync); with scale 4 the reported new
dimensions are 4 x the original, whatever preserve_alpha is. -/
theorem C6_transform_dims (resize : service.PILImage → Nat × Nat → service.PILImage)
    (convertRGB : service.PILImage → service.PILImage) (img : service.PILImage)
    (preserve_alpha : Bool) (h : img.mode = "RGBA") :
    (service.UpscalerService.upscale resize convertRGB service.get_upscaler_service
        (some img) (some 1) true).original_size = (img.width, img.height) ∧
    (service.UpscalerService.upscale resize convertRGB service.get_upscaler_service
        (some img) (some 1) true).upscaled_size = (img.width, img.height) ∧
    (service.UpscalerService.upscale resize convertRGB service.get_upscaler_service
        (some img) (some 1) true).has_alpha = true ∧
    (service.UpscalerService.upscale resize convertRGB service.get_upscaler_service
        (some img) (some 4) preserve_alpha).upscaled_size =
      (img.width * 4, img.height * 4) := by
  refine ⟨?_, ?_, ?_, ?_⟩
  · simp [service.UpscalerService.upscale, service.UpscalerService._upscale_sync,
      service.get_upscaler_service, h]
  · simp [service.UpscalerService.upscale, service.UpscalerService._upscale_sync,
      service.get_upscaler_service, h]
  · simp [service.UpscalerService.upscale, service.UpscalerService._upscale_sync,
      service.get_upscaler_service, h]
  · cases preserve_alpha <;>
      simp [service.UpscalerService.upscale, service.UpscalerService._upscale_sync,
        service.get_upscaler_service, h]

/-- Witness for C6_transform_dims at a concrete 2x3 RGBA image. -/
theorem C6_transform_dims_witness :
    exampleImage.mode = "RGBA" ∧
    ((service.UpscalerService.upscale exampleResize id service.get_upscaler_service
        (some exampleImage) (some 1) true).original_size =
      (exampleImage.width, exampleImage.height) ∧
    (service.UpscalerService.upscale exampleResize id service.get_upscaler_service
        (some exampleImage) (some 1) true).upscaled_size =
      (exampleImage.width, exampleImage.height) ∧
    (service.UpscalerService.upscale exampleResize id service.get_upscaler_service
        (some exampleImage) (some 1) true).has_alpha = true ∧
    (service.UpscalerService.upscale exampleResize id service.get_upscaler_service
        (some exampleImage) (some 4) false).upscaled_size =
      (exampleImage.width * 4, exampleImage.height * 4)) :=
  ⟨rfl, C6_transform_dims exampleResize id exampleImage false rfl⟩

/-- Claim C7. On a decodable RGBA image with preserve_alpha false, the engine
reports has_alpha false and composites the image onto an opaque white background
using the alpha channel as mask BEFORE resizing (the produced image is the
resize of composite_white, for every scale): the composited source is white at
every fully transparent source pixel, so — since resizing an image to its own
size is the identity — a fully transparent source pixel maps to a white output
pixel at scale 1, rather than resizing first and discarding alpha. -/
theorem C7_composite_before_resize (resize : service.PILImage → Nat × Nat → service.PILImage)
    (convertRGB : service.PILImage → service.PILImage) (img : service.PILImage)
    (k x y : Nat) (h : img.mode = "RGBA")
    (hres : ∀ i : service.PILImage, resize i (i.width, i.height) = i)
    (ha : (img.px x y).a = 0) :
    (service.UpscalerService.upscale resize convertRGB service.get_upscaler_service
        (some img) (some 4) false).has_alpha = false ∧
    (service.UpscalerService._upscale_sync resize convertRGB img k false).image =
      resize (service.composite_white img) (img.width * k, img.height * k) ∧
    (service.composite_white img).px x y = service.whitePixel ∧
    (service.UpscalerService._upscale_sync resize convertRGB img 1 false).image.px x y =
      service.whitePixel := by
  have hcomp : ∀ k' : Nat,
      (service.UpscalerService._upscale_sync resize convertRGB img k' false).image =
        resize (service.composite_white img) (img.width * k', img.height * k') := by
    intro k'
    simp [service.UpscalerService._upscale_sync, h]
  have hwhite : (service.composite_white img).px x y = service.whitePixel := by
    simp [service.composite_white, service.blendChannel, ha, service.whitePixel]
  refine ⟨?_, hcomp k, hwhite, ?_⟩
  · simp [service.UpscalerService.upscale, service.UpscalerService._upscale_sync,
      service.get_upscaler_service, h]
  · rw [hcomp 1]
    have hsz : (img.width * 1, img.height * 1) =
        ((service.composite_white img).width, (service.composite_white img).height) := by
      simp [service.composite_white]
    rw [hsz, hres]
    exact hwhite

/-- Witness for C7_composite_before_resize at the concrete 2x3 RGBA image whose
top-left pixel is fully transparent, with a concrete size-respecting resize. -/
theorem C7_composite_before_resize_witness :
    exampleImage.mode = "RGBA" ∧
    (∀ i : service.PILImage, exampleResize i (i.width, i.height) = i) ∧
    (exampleImage.px 0 0).a = 0 ∧
    ((service.UpscalerService.upscale exampleResize id service.get_upscaler_service
        (some exampleImage) (some 4) false).has_alpha = false ∧
    (service.UpscalerService._upscale_sync exampleResize id exampleImage 2 false).image =
      exampleResize (service.composite_white exampleImage)
        (exampleImage.width * 2, exampleImage.height * 2) ∧
    (service.composite_white exampleImage).px 0 0 = service.whitePixel ∧
    (service.UpscalerService._upscale_sync exampleResize id exampleImage 1 false).image.px 0 0 =
      service.whitePixel) :=
  ⟨rfl, fun i => by simp [exampleResize], rfl,
    C7_composite_before_resize exampleResize id exampleImage 2 0 0 rfl
      (fun i => by simp [exampleResize]) rfl⟩

/-- Claim C8 (counterexample). Completion order [ISNet (priority 5), RMBG 2.0
(priority 1)], both successful: the code's present operation
(ShotgunResult.successful, like the service's successful_results) keeps
completion order, while the spec's present sorts by priority ascending — the
two orderings disagree, so the code does not order by priority. -/
theorem C8_counterexample :
    ((cogs.ShotgunResult.mk [exampleIsnet, exampleRmbg] 0).successful.map
        cogs.ModelResult.model_id) ≠
      ((spec.present (fun r => cogs.modelPriority r.model_id)
          [exampleIsnet, exampleRmbg]).map cogs.ModelResult.model_id) := by
  decide

/-- Claim C8 (amended). The present operation returns exactly the successful
outcomes — every successful outcome of the results list and nothing else — in
completion order (a sublist of the results list, whose order it preserves); no
priority sorting is applied. Holds for both the bot-core successful and the
service successful_results. -/
theorem C8_present_completion_order (s : cogs.ShotgunResult)
    (sv : service.ShotgunResult) (r : cogs.ModelResult) (hmem : r ∈ s.results)
    (hsucc : r.is_success = true) (q : cogs.ModelResult) (hq : q ∈ s.successful) :
    s.successful.Sublist s.results ∧
    sv.successful_results.Sublist sv.results ∧
    r ∈ s.successful ∧
    q.is_success = true ∧ q ∈ s.results := by
  refine ⟨List.filter_sublist s.results, List.filter_sublist sv.results, ?_, ?_, ?_⟩
  · exact List.mem_filter.mpr ⟨hmem, hsucc⟩
  · exact (List.mem_filter.mp hq).2
  · exact (List.mem_filter.mp hq).1

/-- Witness for C8_present_completion_order at a concrete two-outcome round. -/
theorem C8_present_completion_order_witness :
    exampleIsnet ∈ (cogs.ShotgunResult.mk [exampleIsnet, exampleFailed] 0).results ∧
    exampleIsnet.is_success = true ∧
    exampleIsnet ∈ (cogs.ShotgunResult.mk [exampleIsnet, exampleFailed] 0).successful ∧
    ((cogs.ShotgunResult.mk [exampleIsnet, exampleFailed] 0).successful.Sublist
        (cogs.ShotgunResult.mk [exampleIsnet, exampleFailed] 0).results ∧
      service.ShotgunResult.init.successful_results.Sublist
        service.ShotgunResult.init.results ∧
      exampleIsnet ∈ (cogs.ShotgunResult.mk [exampleIsnet, exampleFailed] 0).successful ∧
      exampleIsnet.is_success = true ∧
      exampleIsnet ∈ (cogs.ShotgunResult.mk [exampleIsnet, exampleFailed] 0).results) :=
  ⟨by decide, by decide, by decide,
    C8_present_completion_order (cogs.ShotgunResult.mk [exampleIsnet, exampleFailed] 0)
      service.ShotgunResult.init exampleIsnet (by decide) (by decide) exampleIsnet
      (by decide)⟩

/-- Claim C9 (counterexample). The record operation (the /log-selection
endpoint) never fails: a second call for the same job id — even naming a
different model — and a call naming a model id that is not among any successful
outcome are all accepted with status "logged"; no InvalidSelection rejection
exists. -/
theorem C9_counterexample :
    (service.log_selection "local_isnet" (some "job-1") none).status = "logged" ∧
    (service.log_selection "runware_rmbg2" (some "job-1") none).status = "logged" ∧
    (service.log_selection "no-such-model" (some "job-1") none).status = "logged" :=
  ⟨rfl, rfl, rfl⟩

/-- Claim C9 (amended). The record operation performs no validation and keeps no
state: log_selection accepts every (model_id, job_id) pair, duplicates included,
always answering "logged" and echoing its input — InvalidSelection does not
exist. Restriction to successful outcomes happens only in the Discord view,
which creates selection buttons solely for successful results (a second
selection is prevented there by disabling the buttons, not by an error). -/
theorem C9_record_accepts_all (model_id : String) (job_id notes : Option String)
    (results : List cogs.ModelResult) (b : String)
    (hb : b ∈ cogs.ModelSelectView.button_custom_ids results) :
    (service.log_selection model_id job_id notes).status = "logged" ∧
    (service.log_selection model_id job_id notes).model_id = model_id ∧
    (service.log_selection model_id job_id notes).job_id = job_id ∧
    ∃ r, r ∈ results ∧ r.is_success = true ∧ b = "select_" ++ r.model_id := by
  refine ⟨rfl, rfl, rfl, ?_⟩
  simp only [cogs.ModelSelectView.button_custom_ids, List.mem_map] at hb
  obtain ⟨r, hr, hbr⟩ := hb
  exact ⟨r, (List.mem_filter.mp hr).1, (List.mem_filter.mp hr).2, hbr.symm⟩

/-- Witness for C9_record_accepts_all at a concrete duplicate selection and a
concrete one-button view. -/
theorem C9_record_accepts_all_witness :
    "select_local_isnet" ∈ cogs.ModelSelectView.button_custom_ids [exampleIsnet] ∧
    ((service.log_selection "local_isnet" (some "job-1") none).status = "logged" ∧
      (service.log_selection "local_isnet" (some "job-1") none).model_id = "local_isnet" ∧
      (service.log_selection "local_isnet" (some "job-1") none).job_id = some "job-1" ∧
      ∃ r, r ∈ [exampleIsnet] ∧ r.is_success = true ∧
        "select_local_isnet" = "select_" ++ r.model_id) :=
  ⟨by decide, C9_record_accepts_all "local_isnet" (some "job-1") none [exampleIsnet]
      "select_local_isnet" (by decide)⟩

/-- Claim C10. An outcome counts as successful only when its status is Success
AND its payload is present: a status-Success outcome with a missing payload has
is_success false, is counted in failed_count (not successful_count) by
add_result, and is excluded from the successful list that selection and the
stage-2 upscale fan-out consume. -/
theorem C10_success_requires_payload (s : service.ShotgunResult)
    (r : service.ProviderResult) (hr : r.status = service.ProviderStatus.success)
    (hrb : r.image_base64 = none) (m : cogs.ModelResult)
    (hm : m.status = cogs.ModelStatus.success) (hmb : m.image_bytes = none)
    (sc : cogs.ShotgunResult) :
    r.is_success = false ∧
    (s.add_result r).failed_count = s.failed_count + 1 ∧
    (s.add_result r).successful_count = s.successful_count ∧
    m.is_success = false ∧
    m ∉ sc.successful := by
  have hrs : r.is_success = false := by
    simp [service.ProviderResult.is_success, hr, hrb]
  have hms : m.is_success = false := by
    simp [cogs.ModelResult.is_success, hm, hmb]
  refine ⟨hrs, ?_, ?_, hms, ?_⟩
  · simp [service.ShotgunResult.add_result, hrs]
  · simp [service.ShotgunResult.add_result, hrs]
  · intro hmem
    have := (List.mem_filter.mp hmem).2
    rw [hms] at this
    exact Bool.false_ne_true this

/-- Witness for C10_success_requires_payload at a concrete payloadless
status-Success outcome. -/
theorem C10_success_requires_payload_witness :
    examplePayloadless.status = service.ProviderStatus.success ∧
    examplePayloadless.image_base64 = none ∧
    examplePayloadlessModel.status = cogs.ModelStatus.success ∧
    examplePayloadlessModel.image_bytes = none ∧
    (examplePayloadless.is_success = false ∧
      (service.ShotgunResult.init.add_result examplePayloadless).failed_count =
        service.ShotgunResult.init.failed_count + 1 ∧
      (service.ShotgunResult.init.add_result examplePayloadless).successful_count =
        service.ShotgunResult.init.successful_count ∧
      examplePayloadlessModel.is_success = false ∧
      examplePayloadlessModel ∉
        (cogs.ShotgunResult.mk [examplePayloadlessModel] 0).successful) :=
  ⟨rfl, rfl, rfl, rfl,
    C10_success_requires_payload service.ShotgunResult.init examplePayloadless rfl rfl
      examplePayloadlessModel rfl rfl (cogs.ShotgunResult.mk [examplePayloadlessModel] 0)⟩
